import Mathlib

/-!
Verification of the variadic progress-callback bridge in
Sources/COpenConnect/COpenConnect.c.

The bridge, progress_shim_callback, adapts OpenConnect's variadic progress
callback into a fixed-arity call: it measures the formatted length with a
first vsnprintf pass over a duplicated va_list, allocates an exact-size
buffer, formats into it with a second pass over the original va_list, and
forwards the formatted text to the Swift dispatcher progressCallback.

The embedding below renders one invocation of the bridge as the ordered
list of observable events it performs (va_list lifecycle operations,
vsnprintf traversals, malloc/free, and the outbound dispatcher call), so
that resource-discipline and dispatch properties are statements about the
trace.  vsnprintf itself is modelled by an executable reference formatter
over an argument universe of integers and strings.
-/

namespace COpenConnect

/-- A variadic argument as consumed by the format model: an integer
(matched by a %d directive) or a character string (matched by %s). -/
inductive Arg where
  | int (i : Int)
  | str (s : List Char)
deriving DecidableEq

/-- Decimal rendering of an integer, as the %d directive renders in-range
values: base-10 digits, preceded by a minus sign when negative. -/
def intChars (i : Int) : List Char :=
  if i < 0 then '-' :: Nat.toDigits 10 (-i).toNat else Nat.toDigits 10 i.toNat

/-- Reference formatter: the complete output text the host formatting
routine produces for a format string and argument list, or none when
formatting fails (an unsupported conversion directive, a trailing percent,
or an argument of the wrong kind).  Literal characters are copied; %%
emits a percent sign; %d consumes an integer argument; %s consumes a
string argument. -/
def formatOutput : List Char → List Arg → Option (List Char)
  | [], _ => some []
  | '%' :: '%' :: rest, args => (formatOutput rest args).map (fun t => '%' :: t)
  | '%' :: 'd' :: rest, Arg.int i :: args =>
      (formatOutput rest args).map (fun t => intChars i ++ t)
  | '%' :: 's' :: rest, Arg.str s :: args =>
      (formatOutput rest args).map (fun t => s ++ t)
  | '%' :: _, _ => none
  | c :: rest, args => (formatOutput rest args).map (fun t => c :: t)

/-- Model of vsnprintf(buf, n, fmt, ap): the first component is the return
value, the length the fully formatted text would have, or -1 when
formatting fails; the second component is the text actually stored in a
buffer of size n, at most n - 1 characters of the output followed by the
terminator.  The measurement pass of the bridge is the n = 0 call with a
null buffer, which stores nothing and only returns the length. -/
def vsnprintf (n : Nat) (fmt : List Char) (args : List Arg) :
    Int × List Char :=
  match formatOutput fmt args with
  | none => (-1, [])
  | some s => ((s.length : Int), s.take (n - 1))

/-- One observable step of a bridge invocation.  va_list cursors are
numbered: cursor 0 is the args list begun by va_start, cursor 1 the
duplicate begun by va_copy.  vaTraverse records a vsnprintf call consuming
that cursor; malloc records the requested size and whether the allocation
succeeded; progressCall records the outbound call into the Swift
dispatcher with the context pointer, level and formatted message. -/
inductive Event where
  | vaStart (id : Nat)
  | vaCopy (src dst : Nat)
  | vaEnd (id : Nat)
  | vaTraverse (id : Nat)
  | malloc (size : Nat) (ok : Bool)
  | free
  | progressCall (privdata : Nat) (level : Int) (msg : List Char)
deriving DecidableEq

/-- Embedding of progress_shim_callback from COpenConnect.c.  The context
pointer privdata is an opaque address-sized token, modelled as a number
the bridge never inspects.  The allocOk flag models whether the single
malloc call succeeds.  The result is the ordered trace of observable
events of the invocation; a function that returns its trace returns
normally on every input. -/
def progress_shim_callback (privdata : Nat) (level : Int)
    (fmt : Option (List Char)) (args : List Arg) (allocOk : Bool) :
    List Event :=
  match fmt with
  | none => []
  | some f =>
    let size := (vsnprintf 0 f args).1
    let measured := [Event.vaStart 0, Event.vaCopy 0 1,
      Event.vaTraverse 1, Event.vaEnd 1]
    if size < 0 then
      measured ++ [Event.vaEnd 0]
    else if allocOk = false then
      measured ++ [Event.malloc (size.toNat + 1) false, Event.vaEnd 0]
    else
      let buffer := (vsnprintf (size.toNat + 1) f args).2
      measured ++ [Event.malloc (size.toNat + 1) true,
        Event.vaTraverse 0, Event.vaEnd 0,
        Event.progressCall privdata level buffer,
        Event.free]

/-- A handler invocation as observed on the Swift side: which handler ran,
and the context pointer, level and message it received. -/
structure HandlerCall where
  handler : Nat
  privdata : Nat
  level : Int
  msg : List Char
deriving DecidableEq

/-- Modelled from the spec: the Swift dispatcher progressCallback and its
registered-handler slot are declared extern in COpenConnect.c but their
definition is not under src/.  Per the spec, dispatch looks up the single
process-wide registered handler and, when one is present, invokes it
synchronously with the given arguments unchanged; when the slot is unset
the dispatch is a no-op, not an error. -/
def progressCallback (registered : Option Nat) (privdata : Nat)
    (level : Int) (msg : List Char) : List HandlerCall :=
  match registered with
  | some h => [⟨h, privdata, level, msg⟩]
  | none => []

/-- The handler invocations a trace gives rise to, under a given state of
the registered-handler slot. -/
def handlerCalls (registered : Option Nat) : List Event → List HandlerCall
  | [] => []
  | Event.progressCall p l m :: rest =>
      progressCallback registered p l m ++ handlerCalls registered rest
  | _ :: rest => handlerCalls registered rest

/-- The outbound dispatcher calls of a trace: the context pointer, level
and message of each progressCall event, in order. -/
def progressCalls : List Event → List (Nat × Int × List Char)
  | [] => []
  | Event.progressCall p l m :: rest => (p, l, m) :: progressCalls rest
  | _ :: rest => progressCalls rest

/-- The allocation requests of a trace: requested size and success flag of
each malloc event, in order. -/
def mallocs : List Event → List (Nat × Bool)
  | [] => []
  | Event.malloc n ok :: rest => (n, ok) :: mallocs rest
  | _ :: rest => mallocs rest

/-- The va_list lifecycle events of a trace, in order. -/
def cursorEvents : List Event → List Event :=
  List.filter (fun e =>
    match e with
    | Event.vaStart _ => true
    | Event.vaCopy _ _ => true
    | Event.vaEnd _ => true
    | Event.vaTraverse _ => true
    | _ => false)

/-- How many times a trace traverses the given cursor. -/
def traverseCount (id : Nat) (tr : List Event) : Nat :=
  tr.countP (fun e => e = Event.vaTraverse id)

/-- How many times a trace starts the given cursor, by va_start or as the
destination of va_copy. -/
def startCount (id : Nat) (tr : List Event) : Nat :=
  tr.countP (fun e =>
    match e with
    | Event.vaStart j => j = id
    | Event.vaCopy _ j => j = id
    | _ => false)

/-- How many times a trace ends the given cursor with va_end. -/
def endCount (id : Nat) (tr : List Event) : Nat :=
  tr.countP (fun e => e = Event.vaEnd id)

/-- True of a successful malloc event. -/
def isMallocOk : Event → Bool
  | Event.malloc _ ok => ok
  | _ => false

/-- True of a free event. -/
def isFree : Event → Bool
  | Event.free => true
  | _ => false

/-- A trace event with the forwarded context pointer and level blanked,
keeping the message: used to compare control flow and message content
across invocations that differ only in privdata and level. -/
def eraseCtx : Event → Event
  | Event.progressCall _ _ m => Event.progressCall 0 0 m
  | e => e

/-- The trace of the bridge on a non-null format whose measurement fails:
the duplicate cursor is traversed for measurement, both cursors are ended,
and nothing else happens. -/
theorem shim_trace_measure_fail (p : Nat) (l : Int) (f : List Char)
    (args : List Arg) (ok : Bool) (hf : formatOutput f args = none) :
    progress_shim_callback p l (some f) args ok =
      [Event.vaStart 0, Event.vaCopy 0 1, Event.vaTraverse 1,
       Event.vaEnd 1, Event.vaEnd 0] := by
  simp [progress_shim_callback, vsnprintf, hf]

/-- The trace of the bridge on a non-null format that measures
successfully but whose allocation fails. -/
theorem shim_trace_alloc_fail (p : Nat) (l : Int) (f : List Char)
    (args : List Arg) (s : List Char) (hf : formatOutput f args = some s) :
    progress_shim_callback p l (some f) args false =
      [Event.vaStart 0, Event.vaCopy 0 1, Event.vaTraverse 1,
       Event.vaEnd 1, Event.malloc (s.length + 1) false, Event.vaEnd 0] := by
  simp [progress_shim_callback, vsnprintf, hf]

/-- The trace of the bridge on the success path: measurement over the
duplicate cursor, an exact-size allocation, the formatting write over the
original cursor, the dispatcher call with the full formatted text, and
the release of the buffer. -/
theorem shim_trace_success (p : Nat) (l : Int) (f : List Char)
    (args : List Arg) (s : List Char) (hf : formatOutput f args = some s) :
    progress_shim_callback p l (some f) args true =
      [Event.vaStart 0, Event.vaCopy 0 1, Event.vaTraverse 1,
       Event.vaEnd 1, Event.malloc (s.length + 1) true,
       Event.vaTraverse 0, Event.vaEnd 0,
       Event.progressCall p l s, Event.free] := by
  simp [progress_shim_callback, vsnprintf, hf]

/-- Claim C1: for every non-null format string and every argument set for
which the formatting-length measurement succeeds and the allocation
succeeds, the text the bridge passes to the dispatcher (and hence to the
registered handler) is exactly the full output of the reference
formatting routine on the same format and arguments. -/
theorem shim_formats_like_vsnprintf (p : Nat) (l : Int) (f : List Char)
    (args : List Arg) (s : List Char) (hf : formatOutput f args = some s) :
    progressCalls (progress_shim_callback p l (some f) args true) =
      [(p, l, s)] := by
  rw [shim_trace_success p l f args s hf]
  simp [progressCalls]

/-- Witness for C1: formatting "%d items" with the argument 3 delivers
exactly the text "3 items" to the dispatcher. -/
theorem shim_formats_like_vsnprintf_witness :
    progressCalls (progress_shim_callback 1 2
        (some ['%', 'd', ' ', 'i', 't', 'e', 'm', 's']) [Arg.int 3] true) =
      [(1, 2, ['3', ' ', 'i', 't', 'e', 'm', 's'])] :=
  shim_formats_like_vsnprintf 1 2 ['%', 'd', ' ', 'i', 't', 'e', 'm', 's']
    [Arg.int 3] ['3', ' ', 'i', 't', 'e', 'm', 's'] (by decide)

/-- Claim C2: on a null format the bridge returns immediately with an
empty trace: no formatting, no cursor is started, no allocation is made,
and the dispatcher (hence the registered handler) is never invoked. -/
theorem shim_null_format_noop (p : Nat) (l : Int) (args : List Arg)
    (ok : Bool) :
    progress_shim_callback p l none args ok = [] := rfl

/-- Claim C4: whenever the measurement pass signals failure (negative
size) or the allocation fails, the bridge performs no dispatcher call, so
the registered handler is not invoked, and no buffer release happens
because nothing was allocated; the function still returns a trace, i.e.
returns normally. -/
theorem shim_failures_silent (p : Nat) (l : Int) (f : List Char)
    (args : List Arg) (ok : Bool)
    (h : (vsnprintf 0 f args).1 < 0 ∨ ok = false) :
    progressCalls (progress_shim_callback p l (some f) args ok) = [] ∧
      (progress_shim_callback p l (some f) args ok).countP isMallocOk = 0 ∧
      (progress_shim_callback p l (some f) args ok).countP isFree = 0 := by
  rcases hf : formatOutput f args with _ | s
  · rw [shim_trace_measure_fail p l f args ok hf]
    simp [progressCalls, List.countP, List.countP.go, isMallocOk, isFree]
  · have hok : ok = false := by
      rcases h with h | h
      · exfalso
        simp only [vsnprintf, hf] at h
        omega
      · exact h
    subst hok
    rw [shim_trace_alloc_fail p l f args s hf]
    simp [progressCalls, List.countP, List.countP.go, isMallocOk, isFree]

/-- Witness for C4: a format string with an unsupported directive makes
the measurement fail, and the bridge dispatches nothing, allocates
nothing and frees nothing. -/
theorem shim_failures_silent_witness :
    progressCalls (progress_shim_callback 1 2 (some ['%', 'q']) [] true) = [] ∧
      (progress_shim_callback 1 2 (some ['%', 'q']) [] true).countP isMallocOk = 0 ∧
      (progress_shim_callback 1 2 (some ['%', 'q']) [] true).countP isFree = 0 :=
  shim_failures_silent 1 2 ['%', 'q'] [] true (Or.inl (by decide))

/-- Claim C5: when the formatted output has N characters, the bridge
makes exactly one allocation request, of exactly N + 1 bytes, and the
dispatcher receives the full N-character text untruncated. -/
theorem shim_exact_buffer_no_truncation (p : Nat) (l : Int) (f : List Char)
    (args : List Arg) (s : List Char) (hf : formatOutput f args = some s) :
    mallocs (progress_shim_callback p l (some f) args true) =
        [(s.length + 1, true)] ∧
      progressCalls (progress_shim_callback p l (some f) args true) =
        [(p, l, s)] := by
  rw [shim_trace_success p l f args s hf]
  simp [mallocs, progressCalls]

/-- Witness for C5: formatting "a%s" with the string argument "bc" yields
the 3-character text "abc", a single 4-byte allocation request, and the
full text at the dispatcher. -/
theorem shim_exact_buffer_no_truncation_witness :
    mallocs (progress_shim_callback 7 0
        (some ['a', '%', 's']) [Arg.str ['b', 'c']] true) = [(4, true)] ∧
      progressCalls (progress_shim_callback 7 0
        (some ['a', '%', 's']) [Arg.str ['b', 'c']] true) =
        [(7, 0, ['a', 'b', 'c'])] :=
  shim_exact_buffer_no_truncation 7 0 ['a', '%', 's'] [Arg.str ['b', 'c']]
    ['a', 'b', 'c'] (by decide)

/-- Claim C6: a zero-length formatted result is not treated as failure:
when measurement yields the empty output and allocation succeeds, the
dispatcher is still invoked, with the empty message. -/
theorem shim_empty_output_dispatched (p : Nat) (l : Int) (f : List Char)
    (args : List Arg) (hf : formatOutput f args = some []) :
    progressCalls (progress_shim_callback p l (some f) args true) =
      [(p, l, [])] := by
  rw [shim_trace_success p l f args [] hf]
  simp [progressCalls]

/-- Witness for C6: the empty format string formats to the empty text and
the dispatcher is invoked with the empty message rather than skipped. -/
theorem shim_empty_output_dispatched_witness :
    progressCalls (progress_shim_callback 1 2 (some []) [] true) =
      [(1, 2, [])] :=
  shim_empty_output_dispatched 1 2 [] [] (by decide)

/-- Claim C3: on every non-null-format invocation the va_list lifecycle
is exactly: start the original cursor, duplicate it, traverse the
duplicate for measurement and end it, and, only on the success path,
traverse the original for the real write before ending it; consequently
no cursor is traversed more than once, and every cursor that is started
is also ended, on every exit path. -/
theorem shim_cursor_discipline (p : Nat) (l : Int) (f : List Char)
    (args : List Arg) (ok : Bool) :
    (cursorEvents (progress_shim_callback p l (some f) args ok) =
        [Event.vaStart 0, Event.vaCopy 0 1, Event.vaTraverse 1,
         Event.vaEnd 1, Event.vaEnd 0] ∨
      cursorEvents (progress_shim_callback p l (some f) args ok) =
        [Event.vaStart 0, Event.vaCopy 0 1, Event.vaTraverse 1,
         Event.vaEnd 1, Event.vaTraverse 0, Event.vaEnd 0]) ∧
    (∀ id, traverseCount id (progress_shim_callback p l (some f) args ok) ≤ 1) ∧
    (∀ id, startCount id (progress_shim_callback p l (some f) args ok) =
        endCount id (progress_shim_callback p l (some f) args ok)) := by
  rcases hf : formatOutput f args with _ | s
  · rw [shim_trace_measure_fail p l f args ok hf]
    refine ⟨Or.inl rfl, ?_, ?_⟩ <;> intro id <;>
      simp [traverseCount, startCount, endCount, List.countP_cons] <;>
      split_ifs <;> omega
  · cases ok
    · rw [shim_trace_alloc_fail p l f args s hf]
      refine ⟨Or.inl rfl, ?_, ?_⟩ <;> intro id <;>
        simp [traverseCount, startCount, endCount, List.countP_cons] <;>
        split_ifs <;> omega
    · rw [shim_trace_success p l f args s hf]
      refine ⟨Or.inr rfl, ?_, ?_⟩ <;> intro id <;>
        simp [traverseCount, startCount, endCount, List.countP_cons] <;>
        split_ifs <;> omega

/-- Claim C7: whenever a bridge invocation reaches the dispatcher call,
the context pointer and the level it forwards are exactly the ones the
bridge received, unmodified and unvalidated: every invocation either
dispatches nothing or dispatches exactly once with the received context
pointer and level. -/
theorem shim_forwards_context_verbatim (p : Nat) (l : Int)
    (fmt : Option (List Char)) (args : List Arg) (ok : Bool) :
    progressCalls (progress_shim_callback p l fmt args ok) = [] ∨
      ∃ m, progressCalls (progress_shim_callback p l fmt args ok) =
        [(p, l, m)] := by
  rcases fmt with _ | f
  · exact Or.inl rfl
  · rcases hf : formatOutput f args with _ | s
    · rw [shim_trace_measure_fail p l f args ok hf]
      exact Or.inl rfl
    · cases ok
      · rw [shim_trace_alloc_fail p l f args s hf]
        exact Or.inl rfl
      · rw [shim_trace_success p l f args s hf]
        exact Or.inr ⟨s, rfl⟩

/-- Claim C8: every invocation makes at most one allocation request, the
number of buffer releases equals the number of successful allocations (so
an allocated buffer is always released before returning and nothing is
released when nothing was allocated), and no dispatcher call occurs at or
after the release: on the success path the buffer is freed only after the
handler call has returned. -/
theorem shim_allocation_balanced (p : Nat) (l : Int)
    (fmt : Option (List Char)) (args : List Arg) (ok : Bool) :
    (mallocs (progress_shim_callback p l fmt args ok)).length ≤ 1 ∧
      (progress_shim_callback p l fmt args ok).countP isFree =
        (progress_shim_callback p l fmt args ok).countP isMallocOk ∧
      progressCalls ((progress_shim_callback p l fmt args ok).dropWhile
        (fun e => !(isFree e))) = [] := by
  rcases fmt with _ | f
  · exact ⟨by simp [progress_shim_callback, mallocs], rfl, rfl⟩
  · rcases hf : formatOutput f args with _ | s
    · rw [shim_trace_measure_fail p l f args ok hf]
      exact ⟨by simp [mallocs], rfl, rfl⟩
    · cases ok
      · rw [shim_trace_alloc_fail p l f args s hf]
        refine ⟨by simp [mallocs], ?_, ?_⟩ <;>
          simp [List.countP_cons, isFree, isMallocOk, List.dropWhile,
            progressCalls]
      · rw [shim_trace_success p l f args s hf]
        refine ⟨by simp [mallocs], ?_, ?_⟩ <;>
          simp [List.countP_cons, isFree, isMallocOk, List.dropWhile,
            progressCalls]

/-- Claim C9: with no handler registered, a bridge invocation with any
arguments produces no handler invocation at all: the dispatch step is a
no-op on an unset slot. -/
theorem dispatch_noop_when_unregistered (p : Nat) (l : Int)
    (fmt : Option (List Char)) (args : List Arg) (ok : Bool) :
    handlerCalls none (progress_shim_callback p l fmt args ok) = [] := by
  rcases fmt with _ | f
  · rfl
  · rcases hf : formatOutput f args with _ | s
    · rw [shim_trace_measure_fail p l f args ok hf]
      rfl
    · cases ok
      · rw [shim_trace_alloc_fail p l f args s hf]
        rfl
      · rw [shim_trace_success p l f args s hf]
        rfl

/-- Claim C10: two invocations with the same format, arguments and
allocation outcome but different context pointers and levels take the
same control-flow path and deliver the identical message: their traces
agree once the forwarded context pointer and level are blanked, so the
message content depends only on the format and arguments. -/
theorem shim_noninterference_privdata_level (p1 p2 : Nat) (l1 l2 : Int)
    (fmt : Option (List Char)) (args : List Arg) (ok : Bool) :
    (progress_shim_callback p1 l1 fmt args ok).map eraseCtx =
      (progress_shim_callback p2 l2 fmt args ok).map eraseCtx := by
  rcases fmt with _ | f
  · rfl
  · rcases hf : formatOutput f args with _ | s
    · rw [shim_trace_measure_fail p1 l1 f args ok hf,
        shim_trace_measure_fail p2 l2 f args ok hf]
    · cases ok
      · rw [shim_trace_alloc_fail p1 l1 f args s hf,
          shim_trace_alloc_fail p2 l2 f args s hf]
      · rw [shim_trace_success p1 l1 f args s hf,
          shim_trace_success p2 l2 f args s hf]
        simp [eraseCtx]

end COpenConnect
